import Mathlib

/-!
Shallow embedding of `src/src/mesh_partition.rs` (mesh partitioning for
`SimplexMesh`): the two feature-gated partition entry points
(`partition_scotch`, `partition_metis`), their feature-disabled stubs, and
`partition_quality`.

Modelling conventions:
* Machine integers are modelled as `Nat`/`Int`; the only width that matters
  is the 32-bit signed index type of both partitioning backends, made
  explicit in `tryIntoNum`.
* The external backend libraries (scotch / metis) are opaque: each partition
  routine is parametrised by a backend function that receives the converted
  CSR adjacency arrays, the requested part count and the element count, and
  returns either a label vector or a failure, mirroring exactly the calls
  the source makes.
* A Rust `panic!` / `.unwrap()` failure is a distinct outcome (`POutcome.panic`),
  separate from returning `Err` (`POutcome.err`).
* The `f64` division in `partition_quality` is modelled exactly over `ℚ`
  (the two operands are integer counts, so the real-number value of the
  quotient is captured; `ℚ` division by zero yields 0 where the source
  would produce a float NaN).
-/

namespace Tucanos

/-- Modelled from the spec: the crate-level element tag type `Tag` is declared
outside `src/`; the spec (§3, §4.3) treats tags as plain integers. -/
abbrev Tag := Int

/-- Modelled from the spec: the crate-level `Error` type is declared outside
`src/`; the spec (§7) gives the error taxonomy. The source builds errors from
strings ("the scotch feature is not enabled", "face to element connectivity
not computed", ...); each such string is rendered as the taxonomy constructor
the spec assigns to it, with `BackendUnavailable` carrying the backend name. -/
inductive Error where
  | BackendUnavailable (backend : String)
  | BackendFailure
  | IndexConversion
  | MissingConnectivity
  deriving DecidableEq

/-- The compressed element-to-element adjacency (`elem_to_elems`): field
`ptr` is the offsets array, `indices` the concatenated neighbor lists. -/
structure CSRGraph where
  ptr : List Nat
  indices : List Nat
  deriving DecidableEq

/-- The slice of `SimplexMesh` state that `mesh_partition.rs` reads or
writes: element-to-vertex connectivity (`elems`, one vertex-index list per
element), the element tag array (`etags`), the cached element-to-element
adjacency, and the face-to-element connectivity (for each face, the list of
incident element indices; the face key itself is never read). -/
structure SimplexMesh where
  elems : List (List Nat)
  etags : List Tag
  elem_to_elems : Option CSRGraph
  faces_to_elems : Option (List (List Nat))
  deriving DecidableEq

/-- Order-independent equality of two vertex lists (same vertex set). -/
def faceSetEq (f g : List Nat) : Bool :=
  f.all (fun v => g.contains v) && g.all (fun v => f.contains v)

/-- The faces of a simplex element: drop one vertex at a time. -/
def facesOf (e : List Nat) : List (List Nat) :=
  (List.range e.length).map (fun i => e.eraseIdx i)

/-- Two elements are adjacent iff they share a face: some face of one has
the same vertex set as some face of the other (spec §4.1). -/
def adjacentElems (a b : List Nat) : Bool :=
  (facesOf a).any (fun f => (facesOf b).any (fun g => faceSetEq f g))

/-- Modelled from the spec: `compute_elem_to_elems` (the dual-graph builder,
declared outside `src/`) produces the compressed adjacency of spec §3/§4.1:
nodes are elements, edges are shared faces, offsets start at 0 and
accumulate the per-element neighbor counts. -/
def compute_elem_to_elems (m : SimplexMesh) : CSRGraph :=
  let nbrs := (List.range m.elems.length).map (fun i =>
    (List.range m.elems.length).filter (fun j =>
      j != i && adjacentElems (m.elems.getD i []) (m.elems.getD j [])))
  { ptr := List.scanl (fun a b => a + b) 0 (nbrs.map List.length)
    indices := nbrs.flatten }

/-- The adjacency the partition routines use: the cached `elem_to_elems` if
present, otherwise the one `compute_elem_to_elems` builds (both routines
populate the cache when it is absent). -/
def e2eOf (m : SimplexMesh) : CSRGraph :=
  m.elem_to_elems.getD (compute_elem_to_elems m)

/-- `x.try_into().unwrap()` into the backends' 32-bit signed index type
(`scotch::Num` / `metis::Idx`): `some` when the value fits, `none` (a panic
at the `.unwrap()` in the source) otherwise. -/
def tryIntoNum (x : Nat) : Option Int :=
  if x ≤ 2 ^ 31 - 1 then some (x : Int) else none

/-- Elementwise conversion of an index array, failing at the first value
that does not fit (the `.map(|x| x.try_into().unwrap()).collect()` lines). -/
def tryIntoAll : List Nat → Option (List Int)
  | [] => some []
  | x :: xs =>
    match tryIntoNum x with
    | none => none
    | some y =>
      match tryIntoAll xs with
      | none => none
      | some ys => some (y :: ys)

/-- Outcome of one partition call: normal return `Ok(())`, an error return
`Err(e)`, or a process abort (`panic` from an `.unwrap()`). -/
inductive POutcome where
  | ok
  | err (e : Error)
  | panic
  deriving DecidableEq

/-- Observable result of one partition call: the outcome, whether the
`warn!` at the top of the routine fired, and the mesh state afterwards
(at the abort point, for a panic). -/
structure PResult where
  outcome : POutcome
  warned : Bool
  mesh : SimplexMesh

/-- The tag check at the top of both partition routines:
`self.etags().any(|t| t != 1)` guards the `warn!("Erase the element tags")`. -/
def partition_warns (m : SimplexMesh) : Bool :=
  m.etags.any (fun t => t != 1)

/-- Result of the scotch library calls: `Graph::build(..).unwrap()` /
`graph.check().unwrap()` can panic; `mapping(..).compute(..)` can return an
error (propagated with `?`); otherwise the partition vector is filled. -/
inductive ScotchResult where
  | buildPanic
  | mapErr
  | ok (partition : List Int)

/-- The scotch backend as the source uses it: it receives the converted
`xadj` and `adjncy` arrays, the requested part count, and the length of the
partition vector (`n_elems`), and yields a `ScotchResult`. -/
def ScotchBackend : Type :=
  List Int → List Int → Nat → Nat → ScotchResult

/-- The metis backend as the source uses it: `Graph::new(1, n_parts, xadj,
adjncy).part_recursive(partition)` returns `Result`; `ok` carries the filled
partition vector. -/
def MetisBackend : Type :=
  List Int → List Int → Nat → Nat → Except Unit (List Int)

/-- `partition_scotch` with the `scotch` feature enabled: warn on tags ≠ 1,
populate the `elem_to_elems` cache if absent, convert `ptr`/`indices` to
`scotch::Num` (panicking on overflow), run the backend, and on success
overwrite `etags` with the labels shifted by +1. A scotch mapping error is
returned (`?` → `BackendFailure`); graph build/check failures panic. -/
def partition_scotch (backend : ScotchBackend) (m : SimplexMesh)
    (n_parts : Nat) : PResult :=
  match tryIntoAll (e2eOf m).ptr, tryIntoAll (e2eOf m).indices with
  | some xadj, some adjncy =>
    match backend xadj adjncy n_parts m.elems.length with
    | .buildPanic =>
      ⟨.panic, partition_warns m, { m with elem_to_elems := some (e2eOf m) }⟩
    | .mapErr =>
      ⟨.err .BackendFailure, partition_warns m,
        { m with elem_to_elems := some (e2eOf m) }⟩
    | .ok partition =>
      ⟨.ok, partition_warns m,
        { m with elem_to_elems := some (e2eOf m),
                 etags := partition.map (fun i => i + 1) }⟩
  | _, _ =>
    ⟨.panic, partition_warns m, { m with elem_to_elems := some (e2eOf m) }⟩

/-- `partition_scotch` with the `scotch` feature disabled:
`Err(Error::from("the scotch feature is not enabled"))`, touching nothing. -/
def partition_scotch_unavailable (m : SimplexMesh) (_n_parts : Nat) : PResult :=
  ⟨.err (.BackendUnavailable "scotch"), false, m⟩

/-- `partition_metis` with the `metis` feature enabled: same structure as
scotch, except the backend call is `part_recursive(..).unwrap()`: a backend
error panics instead of being returned. -/
def partition_metis (backend : MetisBackend) (m : SimplexMesh)
    (n_parts : Nat) : PResult :=
  match tryIntoAll (e2eOf m).ptr, tryIntoAll (e2eOf m).indices with
  | some xadj, some adjncy =>
    match backend xadj adjncy n_parts m.elems.length with
    | .error _ =>
      ⟨.panic, partition_warns m, { m with elem_to_elems := some (e2eOf m) }⟩
    | .ok partition =>
      ⟨.ok, partition_warns m,
        { m with elem_to_elems := some (e2eOf m),
                 etags := partition.map (fun i => i + 1) }⟩
  | _, _ =>
    ⟨.panic, partition_warns m, { m with elem_to_elems := some (e2eOf m) }⟩

/-- `partition_metis` with the `metis` feature disabled:
`Err(Error::from("the metis feature is not enabled"))`, touching nothing. -/
def partition_metis_unavailable (m : SimplexMesh) (_n_parts : Nat) : PResult :=
  ⟨.err (.BackendUnavailable "metis"), false, m⟩

/-- The filter predicate of `partition_quality`:
`v.len() == 2 && self.etags[v[0]] != self.etags[v[1]]`. -/
def isCutFace (etags : List Tag) (v : List Nat) : Bool :=
  v.length == 2 && (etags.getD (v.getD 0 0) 0 != etags.getD (v.getD 1 0) 0)

/-- `partition_quality`: error if `faces_to_elems` is absent (the routine
takes `&self` and never recomputes connectivity); otherwise count the faces
with exactly two incident elements of differing tags and divide by the total
face count. The `f64` quotient of the two counts is modelled in `ℚ`. -/
def partition_quality (m : SimplexMesh) : Except Error ℚ :=
  match m.faces_to_elems with
  | none => .error .MissingConnectivity
  | some f2e =>
    .ok (((f2e.filter (isCutFace m.etags)).length : ℚ) / (f2e.length : ℚ))

/-! ### Helper lemmas -/

theorem warned_partition_scotch (B : ScotchBackend) (m : SimplexMesh) (n : Nat) :
    (partition_scotch B m n).warned = partition_warns m := by
  unfold partition_scotch
  split
  · split <;> rfl
  · rfl

theorem warned_partition_metis (B : MetisBackend) (m : SimplexMesh) (n : Nat) :
    (partition_metis B m n).warned = partition_warns m := by
  unfold partition_metis
  split
  · split <;> rfl
  · rfl

/-! ### Concrete fixtures used by witnesses and counterexamples -/

/-- A scotch backend that always succeeds with an empty label vector. -/
def scotchOkB : ScotchBackend := fun _ _ _ _ => .ok []

/-- A metis backend that always succeeds with an empty label vector. -/
def metisOkB : MetisBackend := fun _ _ _ _ => .ok []

/-- A two-triangle mesh with the adjacency cache filled and no face map. -/
def mCached : SimplexMesh :=
  ⟨[[0, 1, 2], [0, 2, 3]], [1, 1], some ⟨[0, 1, 2], [1, 0]⟩, none⟩

/-- A two-triangle mesh with no adjacency cache. -/
def mNoCache : SimplexMesh := ⟨[[0, 1, 2], [0, 2, 3]], [1, 1], none, none⟩

/-- A one-element mesh with no face-to-element connectivity. -/
def mNoF2E : SimplexMesh := ⟨[[0, 1, 2]], [1], none, none⟩

/-! ### Claims -/

/-- C4: invoking a backend that is not compiled in returns a
`BackendUnavailable` error carrying the backend's name, emits no warning,
performs no dual-graph construction and leaves the whole mesh state
(element tags included) unchanged. -/
theorem C4_unavailable_no_mutation (m : SimplexMesh) (n_parts : Nat) :
    partition_scotch_unavailable m n_parts =
      ⟨.err (.BackendUnavailable "scotch"), false, m⟩ ∧
    partition_metis_unavailable m n_parts =
      ⟨.err (.BackendUnavailable "metis"), false, m⟩ :=
  ⟨rfl, rfl⟩

/-- C5: `partition_quality` returns the `MissingConnectivity` error iff the
face-to-element connectivity is absent; it returns no other error, and when
the connectivity is absent it never returns any value (the routine reads the
mesh immutably, so no recomputation can be triggered). -/
theorem C5_quality_missing_connectivity (m : SimplexMesh) :
    (partition_quality m = .error .MissingConnectivity ↔
      m.faces_to_elems = none) ∧
    (∀ e, partition_quality m = .error e → e = .MissingConnectivity) ∧
    (m.faces_to_elems = none → ∀ q, partition_quality m ≠ .ok q) := by
  rcases hm : m.faces_to_elems with _ | f2e <;>
    simp [partition_quality, hm]

/-- Witness for C5 at a concrete mesh with no face connectivity. -/
theorem C5_quality_missing_connectivity_witness :
    (partition_quality mNoF2E = .error .MissingConnectivity ↔
      mNoF2E.faces_to_elems = none) ∧
    (∀ e, partition_quality mNoF2E = .error e → e = .MissingConnectivity) ∧
    (mNoF2E.faces_to_elems = none → ∀ q, partition_quality mNoF2E ≠ .ok q) :=
  C5_quality_missing_connectivity mNoF2E

/-- C3: a partition call that returns an error leaves the element tags
exactly as they were before the call, for the scotch and metis routines and
for both feature-disabled stubs. -/
theorem C3_tags_unchanged_on_error (B : ScotchBackend) (B2 : MetisBackend)
    (m : SimplexMesh) (n : Nat) :
    (∀ e, (partition_scotch B m n).outcome = .err e →
      (partition_scotch B m n).mesh.etags = m.etags) ∧
    (∀ e, (partition_metis B2 m n).outcome = .err e →
      (partition_metis B2 m n).mesh.etags = m.etags) ∧
    (partition_scotch_unavailable m n).mesh.etags = m.etags ∧
    (partition_metis_unavailable m n).mesh.etags = m.etags := by
  refine ⟨?_, ?_, rfl, rfl⟩
  · unfold partition_scotch
    split
    · split
      · intro e he; rfl
      · intro e he; rfl
      · intro e he; exact absurd he (by simp)
    · intro e he; rfl
  · unfold partition_metis
    split
    · split
      · intro e he; rfl
      · intro e he; exact absurd he (by simp)
    · intro e he; rfl

/-- A scotch backend whose mapping computation fails. -/
def scotchFailB : ScotchBackend := fun _ _ _ _ => .mapErr

/-- Witness for C3: with a failing scotch mapping the call returns an error
and the tags are untouched. -/
theorem C3_tags_unchanged_on_error_witness :
    (partition_scotch scotchFailB mCached 2).outcome = .err .BackendFailure ∧
    ((∀ e, (partition_scotch scotchFailB mCached 2).outcome = .err e →
        (partition_scotch scotchFailB mCached 2).mesh.etags = mCached.etags) ∧
      (∀ e, (partition_metis metisOkB mCached 2).outcome = .err e →
        (partition_metis metisOkB mCached 2).mesh.etags = mCached.etags) ∧
      (partition_scotch_unavailable mCached 2).mesh.etags = mCached.etags ∧
      (partition_metis_unavailable mCached 2).mesh.etags = mCached.etags) :=
  ⟨by decide, C3_tags_unchanged_on_error scotchFailB metisOkB mCached 2⟩

/-- C10 (frame effect): a partition call that finds the element-to-element
adjacency cache absent stores the computed dual graph on the mesh, whatever
the outcome of the call — in particular the cache survives a backend
failure. -/
theorem C10_cache_populated (B : ScotchBackend) (B2 : MetisBackend)
    (m : SimplexMesh) (n : Nat) (h : m.elem_to_elems = none) :
    (partition_scotch B m n).mesh.elem_to_elems =
      some (compute_elem_to_elems m) ∧
    (partition_metis B2 m n).mesh.elem_to_elems =
      some (compute_elem_to_elems m) := by
  have he : e2eOf m = compute_elem_to_elems m := by
    rw [e2eOf, h]; rfl
  constructor
  · unfold partition_scotch
    split
    · split <;> simp [he]
    · simp [he]
  · unfold partition_metis
    split
    · split <;> simp [he]
    · simp [he]

/-- Witness for C10 at a concrete mesh whose cache is absent, with a failing
scotch backend (so the cache survives the error). -/
theorem C10_cache_populated_witness :
    mNoCache.elem_to_elems = none ∧
    ((partition_scotch scotchFailB mNoCache 2).mesh.elem_to_elems =
        some (compute_elem_to_elems mNoCache) ∧
      (partition_metis metisOkB mNoCache 2).mesh.elem_to_elems =
        some (compute_elem_to_elems mNoCache)) :=
  ⟨rfl, C10_cache_populated scotchFailB metisOkB mNoCache 2 rfl⟩

/-- A two-triangle mesh whose elements all carry tag 2 (uniform, but not the
default tag 1). -/
def mAllTwo : SimplexMesh :=
  ⟨[[0, 1, 2], [0, 2, 3]], [2, 2], some ⟨[0, 1, 2], [1, 0]⟩, none⟩

/-- C9 counterexample: on a mesh whose tags are uniformly 2, both partition
routines fire the warning even though the pre-existing tags are uniform, so
the warning is not equivalent to non-uniformity. -/
theorem C9_counterexample :
    (partition_scotch scotchOkB mAllTwo 4).warned = true ∧
    (partition_metis metisOkB mAllTwo 4).warned = true ∧
    mAllTwo.etags.all (fun t => t == 2) = true := by decide

/-- C9 (amended): each partition routine warns iff some pre-existing element
tag differs from 1 (the default tag), evaluated on the tags before any
overwrite. -/
theorem C9_warn_iff_nondefault_tag (B : ScotchBackend) (B2 : MetisBackend)
    (m : SimplexMesh) (n : Nat) :
    ((partition_scotch B m n).warned = true ↔ ∃ t ∈ m.etags, t ≠ 1) ∧
    ((partition_metis B2 m n).warned = true ↔ ∃ t ∈ m.etags, t ≠ 1) := by
  rw [warned_partition_scotch, warned_partition_metis]
  unfold partition_warns
  constructor <;> simp [List.any_eq_true]

/-- C2: on every successful partition call the element tag array afterwards
is exactly the backend's label vector shifted by +1, for scotch and metis
alike. -/
theorem C2_tags_labels_plus_one (B : ScotchBackend) (B2 : MetisBackend)
    (m : SimplexMesh) (n_parts : Nat)
    (xadj adjncy labels labels2 : List Int)
    (hx : tryIntoAll (e2eOf m).ptr = some xadj)
    (ha : tryIntoAll (e2eOf m).indices = some adjncy)
    (hB : B xadj adjncy n_parts m.elems.length = .ok labels)
    (hB2 : B2 xadj adjncy n_parts m.elems.length = .ok labels2) :
    (partition_scotch B m n_parts).outcome = .ok ∧
    (partition_scotch B m n_parts).mesh.etags =
      labels.map (fun i => i + 1) ∧
    (partition_metis B2 m n_parts).outcome = .ok ∧
    (partition_metis B2 m n_parts).mesh.etags =
      labels2.map (fun i => i + 1) := by
  unfold partition_scotch partition_metis
  rw [hx, ha]
  simp [hB, hB2]

/-- A scotch backend returning the labels `[0, 1]`. -/
def scotchLabB : ScotchBackend := fun _ _ _ _ => .ok [0, 1]

/-- A metis backend returning the labels `[1, 0]`. -/
def metisLabB : MetisBackend := fun _ _ _ _ => .ok [1, 0]

/-- Witness for C2 on a concrete mesh and concrete label vectors. -/
theorem C2_tags_labels_plus_one_witness :
    tryIntoAll (e2eOf mCached).ptr = some [0, 1, 2] ∧
    tryIntoAll (e2eOf mCached).indices = some [1, 0] ∧
    scotchLabB [0, 1, 2] [1, 0] 2 mCached.elems.length = .ok [0, 1] ∧
    metisLabB [0, 1, 2] [1, 0] 2 mCached.elems.length = .ok [1, 0] ∧
    ((partition_scotch scotchLabB mCached 2).outcome = .ok ∧
      (partition_scotch scotchLabB mCached 2).mesh.etags =
        [0, 1].map (fun i => i + 1) ∧
      (partition_metis metisLabB mCached 2).outcome = .ok ∧
      (partition_metis metisLabB mCached 2).mesh.etags =
        [1, 0].map (fun i => i + 1)) :=
  ⟨by decide, by decide, rfl, rfl,
    C2_tags_labels_plus_one scotchLabB metisLabB mCached 2 [0, 1, 2] [1, 0]
      [0, 1] [1, 0] (by decide) (by decide) rfl rfl⟩

/-- An index array containing a value that overflows a 32-bit signed integer
makes the elementwise conversion fail. -/
theorem tryIntoAll_overflow {l : List Nat} (h : ∃ x ∈ l, 2 ^ 31 - 1 < x) :
    tryIntoAll l = none := by
  induction l with
  | nil => simp at h
  | cons a t ih =>
    rcases h with ⟨x, hx, hgt⟩
    rcases List.mem_cons.mp hx with rfl | hxt
    · unfold tryIntoAll tryIntoNum
      rw [if_neg (by omega)]
    · unfold tryIntoAll
      rw [ih ⟨x, hxt, hgt⟩]
      cases tryIntoNum a <;> rfl

/-- When either converted array is `none`, the scotch routine aborts. -/
theorem scotch_conv_none (B : ScotchBackend) (m : SimplexMesh) (n : Nat)
    (h : tryIntoAll (e2eOf m).ptr = none ∨
      tryIntoAll (e2eOf m).indices = none) :
    partition_scotch B m n =
      ⟨.panic, partition_warns m, { m with elem_to_elems := some (e2eOf m) }⟩ := by
  unfold partition_scotch
  split
  · rename_i hxa haj
    rcases h with h | h <;> simp_all
  · rfl

/-- When either converted array is `none`, the metis routine aborts. -/
theorem metis_conv_none (B : MetisBackend) (m : SimplexMesh) (n : Nat)
    (h : tryIntoAll (e2eOf m).ptr = none ∨
      tryIntoAll (e2eOf m).indices = none) :
    partition_metis B m n =
      ⟨.panic, partition_warns m, { m with elem_to_elems := some (e2eOf m) }⟩ := by
  unfold partition_metis
  split
  · rename_i hxa haj
    rcases h with h | h <;> simp_all
  · rfl

/-- A two-element mesh whose cached adjacency contains a neighbor index that
does not fit in 32 signed bits. -/
def mBig : SimplexMesh :=
  ⟨[[0, 1, 2], [1, 2, 3]], [1, 1], some ⟨[0, 1, 2], [2 ^ 31, 0]⟩, none⟩

/-- C6 counterexample: on a mesh whose adjacency holds an index that
overflows the backends' 32-bit signed width, both partition routines abort
by panic (the `.unwrap()` on the failed conversion); neither returns an
`IndexConversion` error. -/
theorem C6_counterexample :
    (partition_scotch scotchOkB mBig 2).outcome = .panic ∧
    (partition_scotch scotchOkB mBig 2).outcome ≠ .err .IndexConversion ∧
    (partition_metis metisOkB mBig 2).outcome = .panic ∧
    (partition_metis metisOkB mBig 2).outcome ≠ .err .IndexConversion := by
  decide

/-- C6 (amended): whenever the adjacency holds an offset or neighbor index
above the backends' 32-bit signed range, the partition call aborts by panic
at the conversion (no error value of any kind is returned) and the element
tags are left unchanged. -/
theorem C6_overflow_panics (B : ScotchBackend) (B2 : MetisBackend)
    (m : SimplexMesh) (n : Nat)
    (h : (∃ x ∈ (e2eOf m).ptr, 2 ^ 31 - 1 < x) ∨
      (∃ x ∈ (e2eOf m).indices, 2 ^ 31 - 1 < x)) :
    (partition_scotch B m n).outcome = .panic ∧
    (partition_scotch B m n).mesh.etags = m.etags ∧
    (partition_metis B2 m n).outcome = .panic ∧
    (partition_metis B2 m n).mesh.etags = m.etags := by
  have hone : tryIntoAll (e2eOf m).ptr = none ∨
      tryIntoAll (e2eOf m).indices = none :=
    h.imp tryIntoAll_overflow tryIntoAll_overflow
  rw [scotch_conv_none B m n hone, metis_conv_none B2 m n hone]
  exact ⟨rfl, rfl, rfl, rfl⟩

/-- Witness for C6 (amended) at the concrete overflowing mesh. -/
theorem C6_overflow_panics_witness :
    ((∃ x ∈ (e2eOf mBig).ptr, 2 ^ 31 - 1 < x) ∨
      (∃ x ∈ (e2eOf mBig).indices, 2 ^ 31 - 1 < x)) ∧
    ((partition_scotch scotchFailB mBig 2).outcome = .panic ∧
      (partition_scotch scotchFailB mBig 2).mesh.etags = mBig.etags ∧
      (partition_metis metisOkB mBig 2).outcome = .panic ∧
      (partition_metis metisOkB mBig 2).mesh.etags = mBig.etags) :=
  ⟨Or.inr (by decide),
    C6_overflow_panics scotchFailB metisOkB mBig 2 (Or.inr (by decide))⟩

/-- A metis backend whose partitioning call fails. -/
def metisFailB : MetisBackend := fun _ _ _ _ => .error ()

/-- C7 counterexample: when the metis backend fails, `partition_metis`
aborts by panic (the `.unwrap()` on `part_recursive`); the failure is not
returned as a `BackendFailure` result value. -/
theorem C7_counterexample :
    (partition_metis metisFailB mCached 2).outcome = .panic ∧
    (partition_metis metisFailB mCached 2).outcome ≠ .err .BackendFailure := by
  decide

/-- C7 (amended): a scotch mapping failure is returned to the caller as a
`BackendFailure` error result, but a metis backend failure aborts by panic;
in both cases the element tags are untouched. -/
theorem C7_backend_failure_paths (B : ScotchBackend) (B2 : MetisBackend)
    (m : SimplexMesh) (n : Nat) (xadj adjncy : List Int)
    (hx : tryIntoAll (e2eOf m).ptr = some xadj)
    (ha : tryIntoAll (e2eOf m).indices = some adjncy)
    (hB : B xadj adjncy n m.elems.length = .mapErr)
    (hB2 : ∃ u, B2 xadj adjncy n m.elems.length = .error u) :
    (partition_scotch B m n).outcome = .err .BackendFailure ∧
    (partition_scotch B m n).mesh.etags = m.etags ∧
    (partition_metis B2 m n).outcome = .panic ∧
    (partition_metis B2 m n).mesh.etags = m.etags := by
  obtain ⟨u, hB2⟩ := hB2
  unfold partition_scotch partition_metis
  rw [hx, ha]
  simp [hB, hB2]

/-- Witness for C7 (amended) with concrete failing backends. -/
theorem C7_backend_failure_paths_witness :
    tryIntoAll (e2eOf mCached).ptr = some [0, 1, 2] ∧
    tryIntoAll (e2eOf mCached).indices = some [1, 0] ∧
    scotchFailB [0, 1, 2] [1, 0] 2 mCached.elems.length = .mapErr ∧
    (∃ u, metisFailB [0, 1, 2] [1, 0] 2 mCached.elems.length = .error u) ∧
    ((partition_scotch scotchFailB mCached 2).outcome =
        .err .BackendFailure ∧
      (partition_scotch scotchFailB mCached 2).mesh.etags = mCached.etags ∧
      (partition_metis metisFailB mCached 2).outcome = .panic ∧
      (partition_metis metisFailB mCached 2).mesh.etags = mCached.etags) :=
  ⟨by decide, by decide, rfl, ⟨(), rfl⟩,
    C7_backend_failure_paths scotchFailB metisFailB mCached 2 [0, 1, 2]
      [1, 0] (by decide) (by decide) rfl ⟨(), rfl⟩⟩

/-- A list in which every entry has length 1 or 2 is exhausted by counting
the length-1 entries and the length-2 entries. -/
theorem length_decomp (l : List (List Nat))
    (h : ∀ v ∈ l, v.length = 1 ∨ v.length = 2) :
    l.length = l.countP (fun v => v.length == 1) +
      l.countP (fun v => v.length == 2) := by
  induction l with
  | nil => simp
  | cons a t ih =>
    have ha := h a (List.mem_cons_self a t)
    have ht := ih (fun v hv => h v (List.mem_cons_of_mem a hv))
    rcases ha with h1 | h1 <;> simp [List.countP_cons, h1, ht] <;> omega

/-- C1: with face-to-element connectivity computed (each face having one or
two incident elements), `partition_quality` returns the number of interior
faces (exactly two incident elements) whose elements carry different tags,
divided by the total face count — the denominator counting boundary faces as
well, while a boundary face never satisfies the cut predicate. -/
theorem C1_quality_cut_ratio (m : SimplexMesh) (f2e : List (List Nat))
    (hf : m.faces_to_elems = some f2e)
    (hlen : ∀ v ∈ f2e, v.length = 1 ∨ v.length = 2) :
    partition_quality m =
      .ok ((f2e.countP (fun v => v.length == 2 &&
            (m.etags.getD (v.getD 0 0) 0 != m.etags.getD (v.getD 1 0) 0)) : ℚ) /
          ((f2e.countP (fun v => v.length == 1) +
            f2e.countP (fun v => v.length == 2) : ℕ) : ℚ)) ∧
    ∀ v ∈ f2e, v.length = 1 → isCutFace m.etags v = false := by
  constructor
  · unfold partition_quality
    rw [hf]
    show Except.ok (((f2e.filter (isCutFace m.etags)).length : ℚ) /
      (f2e.length : ℚ)) = _
    have hnum : (f2e.filter (isCutFace m.etags)).length =
        f2e.countP (fun v => v.length == 2 &&
          (m.etags.getD (v.getD 0 0) 0 != m.etags.getD (v.getD 1 0) 0)) := by
      rw [List.countP_eq_length_filter]
      rfl
    rw [hnum, length_decomp f2e hlen]
  · intro v hv h1
    simp [isCutFace, h1]

/-- A mesh with two elements of differing tags, one interior face (cut) and
two boundary faces. -/
def mQual : SimplexMesh :=
  ⟨[[0, 1, 2], [0, 2, 3]], [1, 2], some ⟨[0, 1, 2], [1, 0]⟩,
    some [[0, 1], [0], [1]]⟩

/-- Witness for C1 at a concrete mesh: one cut interior face out of three
faces in total. -/
theorem C1_quality_cut_ratio_witness :
    mQual.faces_to_elems = some [[0, 1], [0], [1]] ∧
    (∀ v ∈ ([[0, 1], [0], [1]] : List (List Nat)),
      v.length = 1 ∨ v.length = 2) ∧
    (partition_quality mQual =
        .ok ((([[0, 1], [0], [1]] : List (List Nat)).countP
              (fun v => v.length == 2 &&
                (mQual.etags.getD (v.getD 0 0) 0 !=
                  mQual.etags.getD (v.getD 1 0) 0)) : ℚ) /
            ((([[0, 1], [0], [1]] : List (List Nat)).countP
                (fun v => v.length == 1) +
              ([[0, 1], [0], [1]] : List (List Nat)).countP
                (fun v => v.length == 2) : ℕ) : ℚ)) ∧
      ∀ v ∈ ([[0, 1], [0], [1]] : List (List Nat)),
        v.length = 1 → isCutFace mQual.etags v = false) :=
  ⟨rfl, by decide,
    C1_quality_cut_ratio mQual [[0, 1], [0], [1]] rfl (by decide)⟩

/-- C8: with face connectivity computed and at least one face, the quality
is a value in [0, 1]; and when all elements carry one same tag (all face
incidences in range), the quality is exactly 0. -/
theorem C8_quality_bounds (m : SimplexMesh) (f2e : List (List Nat))
    (hf : m.faces_to_elems = some f2e) (_hne : f2e ≠ []) :
    (∃ q : ℚ, partition_quality m = .ok q ∧ 0 ≤ q ∧ q ≤ 1) ∧
    ((∀ t ∈ m.etags, t = m.etags.getD 0 0) →
      (∀ v ∈ f2e, ∀ i ∈ v, i < m.etags.length) →
      partition_quality m = .ok 0) := by
  have hq : partition_quality m =
      .ok (((f2e.filter (isCutFace m.etags)).length : ℚ) /
        (f2e.length : ℚ)) := by
    unfold partition_quality
    rw [hf]
  constructor
  · refine ⟨_, hq, by positivity, ?_⟩
    apply div_le_one_of_le₀
    · exact_mod_cast f2e.length_filter_le _
    · positivity
  · intro htags hbound
    rw [hq]
    have hfil : f2e.filter (isCutFace m.etags) = [] := by
      rw [List.filter_eq_nil_iff]
      intro v hv
      by_cases h2 : v.length = 2
      · have h0 : (0 : Nat) < v.length := by omega
        have h1 : (1 : Nat) < v.length := by omega
        have m0 : v.getD 0 0 ∈ v := by
          rw [List.getD_eq_getElem v 0 h0]
          exact List.getElem_mem h0
        have m1 : v.getD 1 0 ∈ v := by
          rw [List.getD_eq_getElem v 0 h1]
          exact List.getElem_mem h1
        have hb0 := hbound v hv _ m0
        have hb1 := hbound v hv _ m1
        have e0 : m.etags.getD (v.getD 0 0) 0 = m.etags.getD 0 0 := by
          rw [List.getD_eq_getElem m.etags 0 hb0]
          exact htags _ (List.getElem_mem hb0)
        have e1 : m.etags.getD (v.getD 1 0) 0 = m.etags.getD 0 0 := by
          rw [List.getD_eq_getElem m.etags 0 hb1]
          exact htags _ (List.getElem_mem hb1)
        have hcut : (m.etags.getD (v.getD 0 0) 0 !=
            m.etags.getD (v.getD 1 0) 0) = false := by
          rw [e0, e1, bne_self_eq_false]
        unfold isCutFace
        rw [hcut]
        simp
      · simp [isCutFace, h2]
    rw [hfil]
    simp

/-- A mesh with two elements of one same tag, one interior face and one
boundary face. -/
def mUnif : SimplexMesh :=
  ⟨[[0, 1, 2], [0, 2, 3]], [5, 5], none, some [[0, 1], [0]]⟩

/-- Witness for C8 at a concrete uniformly-tagged mesh with two faces. -/
theorem C8_quality_bounds_witness :
    mUnif.faces_to_elems = some [[0, 1], [0]] ∧
    ([[0, 1], [0]] : List (List Nat)) ≠ [] ∧
    ((∃ q : ℚ, partition_quality mUnif = .ok q ∧ 0 ≤ q ∧ q ≤ 1) ∧
      ((∀ t ∈ mUnif.etags, t = mUnif.etags.getD 0 0) →
        (∀ v ∈ ([[0, 1], [0]] : List (List Nat)), ∀ i ∈ v,
          i < mUnif.etags.length) →
        partition_quality mUnif = .ok 0)) :=
  ⟨rfl, by decide, C8_quality_bounds mUnif [[0, 1], [0]] rfl (by decide)⟩

end Tucanos
